import Mathlib

/-!
Verification development for the Pkg-Fetcher repository.

The Python sources (pkg_fetcher/utils.py, sshsession.py, remote_deb_fetcher.py,
pkg_fetcher/main module) are shallowly embedded here.  The remote host is
modelled by a structure of deterministic command responses (one per remote
command the program can issue); every remote interaction of a run appends an
event to an explicit trace, so that temporal properties (which commands were
issued, in which order, on which paths) become statements about the trace.
Exceptions (ToolError) are modelled as the error side of an Except value that
carries the exact message string built by the source.

Out of scope of the shallow embedding, as noted at each definition: SSH
authentication (run starts after a successful connect), the verbose logging
and timing side channel, transport-level exceptions inside ssh.exec, and
local tar I O failures (archive creation is modelled as succeeding).
-/

namespace PkgFetcher

/-- Remote command execution result, mirroring utils.ExecResult
(exit_status, stdout, stderr). -/
structure ExecResult where
  exit_status : Int
  stdout : String
  stderr : String
deriving Repr, DecidableEq

/-- Abstract behaviour of the remote host: the response to each remote command
the program can issue during one run.  Each field corresponds to exactly one
ssh.exec call site in remote_deb_fetcher.py; the download commands are issued
at most once per run, so one response per field is a faithful abstraction. -/
structure Remote where
  /-- Response to the apt-get presence probe in assert_apt_host. -/
  apt_host_probe : ExecResult
  /-- Response to mktemp -d in mktemp_dir. -/
  mktemp : ExecResult
  /-- Response to the wget presence probe in choose_downloader. -/
  wget_probe : ExecResult
  /-- Response to the curl presence probe in choose_downloader. -/
  curl_probe : ExecResult
  /-- Response to the apt-get print-uris pipeline in compute_uris_via_apt_print. -/
  print_uris : ExecResult
  /-- Response to the apt-rdepends presence probe in ensure_apt_rdepends. -/
  rdepends_probe : ExecResult
  /-- Response to the apt-rdepends pipeline in compute_packages_via_rdepends. -/
  rdepends : ExecResult
  /-- Response to the apt-cache depends pipeline in compute_packages_via_apt_cache. -/
  apt_cache : ExecResult
  /-- Response to the batched wget or curl loop in download_uris. -/
  download_uris_res : ExecResult
  /-- Response to the apt-get download loop in download_packages. -/
  download_packages_res : ExecResult
  /-- Response to the find command in list_debs. -/
  list_debs_res : ExecResult
  /-- Whether sftp.get succeeds for a given remote path (sshsession.sftp_get). -/
  sftp_ok : String → Bool

/-- One remote interaction of a run: each ssh.exec call site, each sftp.get,
and the session close. -/
inductive Ev where
  | execAptProbe
  | execMktemp
  | execWgetProbe
  | execCurlProbe
  | execPrintUris
  | execRdependsProbe
  | execRdepends
  | execAptCache
  | execDownloadUris (uris : List String)
  | execDownloadPackages (pkgs : List String)
  | execListDebs
  | execCleanup (path : String)
  | sftpGet (path : String)
  | closeSession
deriving Repr, DecidableEq

/-- Trace of remote interactions, in issue order. -/
abbrev Trace := List Ev

/-- Events belonging to the expansion (fallback) strategy: the apt-rdepends
presence probe, the two expansion pipelines, and the apt-get download loop. -/
def Ev.isExpansion : Ev → Bool
  | .execRdependsProbe => true
  | .execRdepends => true
  | .execAptCache => true
  | .execDownloadPackages _ => true
  | _ => false

/-- Events that remove the remote scratch directory. -/
def Ev.isCleanup : Ev → Bool
  | .execCleanup _ => true
  | _ => false

/-- Characters removed by the Python str.strip default. -/
def isStripChar (c : Char) : Bool :=
  c = ' ' || c = '\t' || c = '\n' || c = '\r'

/-- Model of str.strip(): drop leading and trailing whitespace. -/
def stripChars (cs : List Char) : List Char :=
  ((cs.dropWhile isStripChar).reverse.dropWhile isStripChar).reverse

/-- Model of str.strip() on strings. -/
def strip (s : String) : String :=
  String.mk (stripChars s.toList)

/-- Split a character list on a separator character; always returns at least
one (possibly empty) segment. -/
def splitChar (sep : Char) : List Char → List (List Char)
  | [] => [[]]
  | c :: rest =>
    match splitChar sep rest with
    | [] => [[]]
    | l :: ls => if c = sep then [] :: l :: ls else (c :: l) :: ls

/-- Model of the list comprehension
[line.strip() for line in res.stdout.splitlines() if line.strip()]
used by every output-consuming remote call: split on newlines, strip each
line, drop blank lines.  (splitlines also recognises other separators such
as a carriage return; combined with the strip and the blank filter this
split-on-newline model yields the same list for CRLF input as well.) -/
def parse_lines (s : String) : List String :=
  ((splitChar '\n' s.toList).map (fun cs => String.mk (stripChars cs))).filter
    (fun l => l ≠ "")

/-- Model of Path(rp).name: the last slash-separated component. -/
def pathBaseName (p : String) : String :=
  String.mk ((splitChar '/' p.toList).getLastD [])

/-! Remote operations of RemoteDebFetcher.  Each takes the remote behaviour
and the trace so far, and returns the extended trace together with the
result: Except.error carries the ToolError message raised by the source. -/

/-- RemoteDebFetcher.assert_apt_host: probe for apt-get, raise unless the
echoed exit status is the string 0. -/
def assert_apt_host (r : Remote) (t : Trace) : Trace × Except String Unit :=
  let t1 := t ++ [Ev.execAptProbe]
  if strip r.apt_host_probe.stdout ≠ "0" then
    (t1, .error "Remote host does not have apt-get. This tool requires a Debian/Ubuntu-like system.")
  else (t1, .ok ())

/-- RemoteDebFetcher.mktemp_dir: create the remote scratch directory and
return its trimmed path. -/
def mktemp_dir (r : Remote) (t : Trace) : Trace × Except String String :=
  let t1 := t ++ [Ev.execMktemp]
  if r.mktemp.exit_status ≠ 0 then
    (t1, .error "Failed to create remote temp directory.")
  else (t1, .ok (strip r.mktemp.stdout))

/-- RemoteDebFetcher.cleanup_dir: rm -rf the scratch directory; the command
result is ignored by the source, so this can not fail. -/
def cleanup_dir (path : String) (t : Trace) : Trace :=
  t ++ [Ev.execCleanup path]

/-- RemoteDebFetcher.choose_downloader: prefer wget, fall back to curl,
raise when neither exists.  The returned command templates are those of the
source (braces written as escapes). -/
def choose_downloader (r : Remote) (t : Trace) : Trace × Except String String :=
  let t1 := t ++ [Ev.execWgetProbe]
  if r.wget_probe.exit_status = 0 then
    (t1, .ok "wget -q -P \x7bdir\x7d \x7burl\x7d")
  else
    let t2 := t1 ++ [Ev.execCurlProbe]
    if r.curl_probe.exit_status = 0 then
      (t2, .ok "curl -L --fail --silent --show-error -o \x7bdir\x7d/\x7bfname\x7d \x7burl\x7d")
    else
      (t2, .error "Neither wget nor curl found on remote host.")

/-- RemoteDebFetcher.compute_uris_via_apt_print: run the print-uris pipeline,
raise on nonzero exit, otherwise return the parsed lines.  The source only
warns when the result is empty (and the yes flag is unset); it still returns
the empty list. -/
def compute_uris_via_apt_print (r : Remote) (package : String) (t : Trace) :
    Trace × Except String (List String) :=
  let t1 := t ++ [Ev.execPrintUris]
  if r.print_uris.exit_status ≠ 0 then
    (t1, .error "Failed to compute URIs via apt-get --print-uris.")
  else (t1, .ok (parse_lines r.print_uris.stdout))

/-- RemoteDebFetcher.ensure_apt_rdepends: boolean presence probe, never
raises. -/
def ensure_apt_rdepends (r : Remote) (t : Trace) : Trace × Bool :=
  (t ++ [Ev.execRdependsProbe], r.rdepends_probe.exit_status = 0)

/-- RemoteDebFetcher.compute_packages_via_rdepends: run the apt-rdepends
pipeline, raise on nonzero exit, otherwise return the parsed lines. -/
def compute_packages_via_rdepends (r : Remote) (package : String) (t : Trace) :
    Trace × Except String (List String) :=
  let t1 := t ++ [Ev.execRdepends]
  if r.rdepends.exit_status ≠ 0 then
    (t1, .error "apt-rdepends failed to compute dependencies.")
  else (t1, .ok (parse_lines r.rdepends.stdout))

/-- RemoteDebFetcher.compute_packages_via_apt_cache: run the apt-cache
depends pipeline, raise on nonzero exit, otherwise return the parsed lines. -/
def compute_packages_via_apt_cache (r : Remote) (package : String) (t : Trace) :
    Trace × Except String (List String) :=
  let t1 := t ++ [Ev.execAptCache]
  if r.apt_cache.exit_status ≠ 0 then
    (t1, .error "apt-cache depends failed to compute dependencies.")
  else (t1, .ok (parse_lines r.apt_cache.stdout))

/-- RemoteDebFetcher.download_uris: raise on the empty list before any remote
call, then pick a downloader, then issue the batched download loop and raise
on nonzero exit. -/
def download_uris (r : Remote) (uris : List String) (remote_dir : String) (t : Trace) :
    Trace × Except String Unit :=
  if uris = [] then (t, .error "Empty URI list; nothing to download.")
  else
    match choose_downloader r t with
    | (t1, .error e) => (t1, .error e)
    | (t1, .ok _tmpl) =>
      let t2 := t1 ++ [Ev.execDownloadUris uris]
      if r.download_uris_res.exit_status ≠ 0 then
        (t2, .error "Failed to download one or more .deb files via URIs.")
      else (t2, .ok ())

/-- RemoteDebFetcher.download_packages: raise on the empty list before any
remote call, then issue the apt-get download loop and raise on nonzero
exit. -/
def download_packages (r : Remote) (packages : List String) (remote_dir : String) (t : Trace) :
    Trace × Except String Unit :=
  if packages = [] then (t, .error "Empty package list; nothing to download.")
  else
    let t1 := t ++ [Ev.execDownloadPackages packages]
    if r.download_packages_res.exit_status ≠ 0 then
      (t1, .error "apt-get download failed for one or more packages.")
    else (t1, .ok ())

/-- RemoteDebFetcher.list_debs: enumerate the .deb files of the scratch
directory, raise on nonzero exit. -/
def list_debs (r : Remote) (remote_dir : String) (t : Trace) :
    Trace × Except String (List String) :=
  let t1 := t ++ [Ev.execListDebs]
  if r.list_debs_res.exit_status ≠ 0 then
    (t1, .error "Failed to enumerate downloaded .deb files.")
  else (t1, .ok (parse_lines r.list_debs_res.stdout))

/-- SSHSession.sftp_get for one file.  The source appends the underlying
exception text to the message; that text is environment noise and is
abstracted away here. -/
def sftp_get (r : Remote) (remote_path : String) (t : Trace) : Trace × Except String Unit :=
  let t1 := t ++ [Ev.sftpGet remote_path]
  if r.sftp_ok remote_path then (t1, .ok ())
  else (t1, .error ("SFTP get failed for " ++ remote_path))

/-! Orchestrator (the run function of the main module), decomposed along the
try blocks of the source.  primaryBlock is the inner try body (lines 47-57),
secondaryBlock is the fallback try body (lines 65-80), resolveAndDownload is
the inner try with both except clauses (lines 47-86), runBody is the outer
try body (lines 42-103), and run adds the finally ssh.close (line 105). -/

/-- Primary strategy block: in auto and uris modes, compute URIs, reject an
empty list only in auto mode, then download them; in any other mode raise
immediately.  Returns the used_strategy label on success. -/
def primaryBlock (r : Remote) (package : String) (method : String) (remote_dir : String)
    (t : Trace) : Trace × Except String String :=
  if method = "auto" ∨ method = "uris" then
    match compute_uris_via_apt_print r package t with
    | (t1, .error e) => (t1, .error e)
    | (t1, .ok uris) =>
      if uris = [] ∧ method = "auto" then
        (t1, .error "No URIs from print-uris; falling back.")
      else
        match download_uris r uris remote_dir t1 with
        | (t2, .error e) => (t2, .error e)
        | (t2, .ok _) => (t2, .ok "print-uris")
  else (t, .error "Skip print-uris per method selection.")

/-- The skip-list filter of run (lines 75-77): applied only when
skip_packages is truthy in Python, that is, present and non-empty. -/
def applySkips (pkgs : List String) (skip_packages : Option (List String)) : List String :=
  match skip_packages with
  | some sk => if sk = [] then pkgs else pkgs.filter (fun p => !sk.contains p)
  | none => pkgs

/-- Secondary (fallback) strategy block: probe for apt-rdepends to choose the
expansion form, reject an empty expansion, filter the skip list, download by
package name.  Returns the used_strategy label on success. -/
def secondaryBlock (r : Remote) (package : String) (skip_packages : Option (List String))
    (remote_dir : String) (t : Trace) : Trace × Except String String :=
  match ensure_apt_rdepends r t with
  | (t1, useRdeps) =>
    match (if useRdeps then compute_packages_via_rdepends r package t1
           else compute_packages_via_apt_cache r package t1) with
    | (t2, .error e) => (t2, .error e)
    | (t2, .ok pkgs) =>
      if pkgs = [] then (t2, .error "Dependency expansion returned empty list.")
      else
        match download_packages r (applySkips pkgs skip_packages) remote_dir t2 with
        | (t3, .error e) => (t3, .error e)
        | (t3, .ok _) => (t3, .ok "apt-(r)depends + apt-get download")

/-- The inner try with both except clauses: on a primary failure, re-raise in
uris mode, otherwise attempt the secondary block; when it also fails, raise
the combined two-message error of line 84. -/
def resolveAndDownload (r : Remote) (package : String) (skip_packages : Option (List String))
    (method : String) (remote_dir : String) (t : Trace) : Trace × Except String String :=
  match primaryBlock r package method remote_dir t with
  | (t1, .ok s) => (t1, .ok s)
  | (t1, .error primary_err) =>
    if method = "uris" then (t1, .error primary_err)
    else
      match secondaryBlock r package skip_packages remote_dir t1 with
      | (t2, .ok s) => (t2, .ok s)
      | (t2, .error secondary_err) =>
        (t2, .error ("Both strategies failed. Primary: " ++ primary_err ++
          " | Secondary: " ++ secondary_err))

/-- The transfer loop of run (lines 95-97): sftp each remote .deb back, one by
one; also returns the base names of the files actually written locally (a
failure keeps the files already transferred). -/
def transfer_loop (r : Remote) (files : List String) (t : Trace) :
    Trace × List String × Except String Unit :=
  match files with
  | [] => (t, [], .ok ())
  | rp :: rest =>
    match sftp_get r rp t with
    | (t1, .error e) => (t1, [], .error e)
    | (t1, .ok _) =>
      let out := transfer_loop r rest t1
      (out.1, pathBaseName rp :: out.2.1, out.2.2)

/-- Outcome of one orchestrated run: the remote interaction trace, the local
file names written into the output directory, and the overall result. -/
structure RunOut where
  trace : Trace
  written : List String
  result : Except String Unit
deriving Repr

/-- The outer try body of run (lines 42-103): probe, scratch dir, strategy
selection and download, enumeration, transfer, cleanup on success. -/
def runBody (r : Remote) (package : String) (skip_packages : Option (List String))
    (method : String) (t : Trace) : Trace × List String × Except String Unit :=
  match assert_apt_host r t with
  | (t1, .error e) => (t1, [], .error e)
  | (t1, .ok _) =>
    match mktemp_dir r t1 with
    | (t2, .error e) => (t2, [], .error e)
    | (t2, .ok remote_dir) =>
      match resolveAndDownload r package skip_packages method remote_dir t2 with
      | (t3, .error e) => (t3, [], .error e)
      | (t3, .ok _used_strategy) =>
        match list_debs r remote_dir t3 with
        | (t4, .error e) => (t4, [], .error e)
        | (t4, .ok deb_files) =>
          if deb_files = [] then
            (t4, [], .error "No .deb files found after download. Aborting.")
          else
            match transfer_loop r deb_files t4 with
            | (t5, ws, .error e) => (t5, ws, .error e)
            | (t5, ws, .ok _) =>
              (cleanup_dir remote_dir t5, ws, .ok ())

/-- The run function of the main module, from just after ssh.connect: the
outer try body wrapped in the finally that always closes the session.
Connection establishment and authentication are outside the model. -/
def run (r : Remote) (package : String) (skip_packages : Option (List String))
    (method : String) : RunOut :=
  match runBody r package skip_packages method [] with
  | (t, ws, res) => ⟨t ++ [Ev.closeSession], ws, res⟩

/-! Local side (the main function of the main module).  The local filesystem
is modelled only as far as the claims need it: whether the output directory
exists, which files this program wrote into it, and whether the .tar.xz
bundle exists.  Local tar I O is modelled as succeeding (the source catches
and only warns on archive failures); the KeyboardInterrupt path is outside
the model. -/

/-- State of the output path before the program starts. -/
structure LocalPre where
  outPathExists : Bool
  outPathIsDir : Bool
  outPathEmpty : Bool
  tarExists : Bool
deriving Repr, DecidableEq

/-- Local filesystem observation: whether the output directory is present,
the files this program transferred into it, whether the bundle is present. -/
structure LocalFS where
  outDirPresent : Bool
  outDirFiles : List String
  tarPresent : Bool
deriving Repr, DecidableEq

/-- Outcome of main: success (exit 0), a handled ToolError (exit 2), or a
ToolError escaping from ensure_out_dir before the try block (uncaught in the
source, so the finally never runs). -/
inductive MainOutcome where
  | success
  | toolFailure (msg : String)
  | prepFailure (msg : String)
deriving Repr, DecidableEq

/-- ensure_out_dir of the main module: reject an existing non-directory or an
existing non-empty directory, otherwise create or reuse the directory.  The
source interpolates the path into the messages; the path text is abstracted
away here. -/
def ensure_out_dir (pre : LocalPre) : Except String Unit :=
  if pre.outPathExists ∧ ¬ pre.outPathIsDir then
    .error "Output path exists and is not a directory."
  else if pre.outPathExists ∧ ¬ pre.outPathEmpty then
    .error "Output directory is not empty."
  else .ok ()

/-- archive_output_dir: bundle the output directory into a .tar.xz next to
it, overwriting a stale bundle; local tar failures are only warned about in
the source and are modelled as not happening. -/
def archive_output_dir (fs : LocalFS) : LocalFS :=
  { fs with tarPresent := true }

/-- The shutil.rmtree of the finally block in main: removes the output
directory and everything in it, ignoring errors. -/
def rmtree_out_dir (fs : LocalFS) : LocalFS :=
  { fs with outDirPresent := false, outDirFiles := [] }

/-- The main function: ensure_out_dir outside the try block, then run and
archive inside try, with rmtree in the finally clause. -/
def main (pre : LocalPre) (r : Remote) (package : String)
    (skip_packages : Option (List String)) (method : String) : MainOutcome × LocalFS :=
  match ensure_out_dir pre with
  | .error e =>
    (.prepFailure e,
     { outDirPresent := pre.outPathExists, outDirFiles := [], tarPresent := pre.tarExists })
  | .ok _ =>
    let o := run r package skip_packages method
    let fs1 : LocalFS :=
      { outDirPresent := true, outDirFiles := o.written, tarPresent := pre.tarExists }
    match o.result with
    | .ok _ => (.success, rmtree_out_dir (archive_output_dir fs1))
    | .error e => (.toolFailure e, rmtree_out_dir fs1)

/-- Result discriminator for run outcomes. -/
def isOkE {α : Type} : Except String α → Bool
  | .ok _ => true
  | .error _ => false

/-! Trace-free outcome functions: derived normal forms of the result
component of each operation above (not separate embeddings; each is proved
equal, in the lemma part of this file, to the result component of the
corresponding operation).  They let claims about results be settled without
mentioning traces. -/

/-- Outcome of choose_downloader. -/
def choose_downloader_out (r : Remote) : Except String String :=
  if r.wget_probe.exit_status = 0 then .ok "wget -q -P \x7bdir\x7d \x7burl\x7d"
  else if r.curl_probe.exit_status = 0 then
    .ok "curl -L --fail --silent --show-error -o \x7bdir\x7d/\x7bfname\x7d \x7burl\x7d"
  else .error "Neither wget nor curl found on remote host."

/-- Outcome of download_uris. -/
def download_uris_out (r : Remote) (uris : List String) : Except String Unit :=
  if uris = [] then .error "Empty URI list; nothing to download."
  else
    match choose_downloader_out r with
    | .error e => .error e
    | .ok _ =>
      if r.download_uris_res.exit_status ≠ 0 then
        .error "Failed to download one or more .deb files via URIs."
      else .ok ()

/-- Outcome of download_packages. -/
def download_packages_out (r : Remote) (pkgs : List String) : Except String Unit :=
  if pkgs = [] then .error "Empty package list; nothing to download."
  else if r.download_packages_res.exit_status ≠ 0 then
    .error "apt-get download failed for one or more packages."
  else .ok ()

/-- Outcome of primaryBlock. -/
def primaryBlock_out (r : Remote) (method : String) : Except String String :=
  if method = "auto" ∨ method = "uris" then
    if r.print_uris.exit_status ≠ 0 then
      .error "Failed to compute URIs via apt-get --print-uris."
    else if parse_lines r.print_uris.stdout = [] ∧ method = "auto" then
      .error "No URIs from print-uris; falling back."
    else
      match download_uris_out r (parse_lines r.print_uris.stdout) with
      | .error e => .error e
      | .ok _ => .ok "print-uris"
  else .error "Skip print-uris per method selection."

/-- Outcome of the expansion step of secondaryBlock (form 2 or 3 chosen by
the apt-rdepends probe). -/
def expansion_out (r : Remote) : Except String (List String) :=
  if r.rdepends_probe.exit_status = 0 then
    if r.rdepends.exit_status ≠ 0 then
      .error "apt-rdepends failed to compute dependencies."
    else .ok (parse_lines r.rdepends.stdout)
  else
    if r.apt_cache.exit_status ≠ 0 then
      .error "apt-cache depends failed to compute dependencies."
    else .ok (parse_lines r.apt_cache.stdout)

/-- Outcome of secondaryBlock. -/
def secondaryBlock_out (r : Remote) (sk : Option (List String)) : Except String String :=
  match expansion_out r with
  | .error e => .error e
  | .ok pkgs =>
    if pkgs = [] then .error "Dependency expansion returned empty list."
    else
      match download_packages_out r (applySkips pkgs sk) with
      | .error e => .error e
      | .ok _ => .ok "apt-(r)depends + apt-get download"

/-- Outcome of resolveAndDownload. -/
def resolveAndDownload_out (r : Remote) (sk : Option (List String)) (method : String) :
    Except String String :=
  match primaryBlock_out r method with
  | .ok s => .ok s
  | .error primary_err =>
    if method = "uris" then .error primary_err
    else
      match secondaryBlock_out r sk with
      | .ok s => .ok s
      | .error secondary_err =>
        .error ("Both strategies failed. Primary: " ++ primary_err ++
          " | Secondary: " ++ secondary_err)

/-- Outcome of the transfer loop. -/
def transfer_out (r : Remote) : List String → Except String Unit
  | [] => .ok ()
  | f :: rest => if r.sftp_ok f then transfer_out r rest else .error ("SFTP get failed for " ++ f)

/-- Outcome of one whole orchestrated run. -/
def run_out (r : Remote) (sk : Option (List String)) (method : String) : Except String Unit :=
  match (if strip r.apt_host_probe.stdout ≠ "0" then
      (Except.error "Remote host does not have apt-get. This tool requires a Debian/Ubuntu-like system." : Except String Unit)
    else .ok ()) with
  | .error e => .error e
  | .ok _ =>
    if r.mktemp.exit_status ≠ 0 then .error "Failed to create remote temp directory."
    else
      match resolveAndDownload_out r sk method with
      | .error e => .error e
      | .ok _ =>
        if r.list_debs_res.exit_status ≠ 0 then
          .error "Failed to enumerate downloaded .deb files."
        else if parse_lines r.list_debs_res.stdout = [] then
          .error "No .deb files found after download. Aborting."
        else transfer_out r (parse_lines r.list_debs_res.stdout)

/-! Concrete remote behaviours used by counterexamples and witnesses. -/

/-- A remote where the probe, mktemp, print-uris (one URI), wget download,
enumeration and transfer all succeed. -/
def rGood : Remote :=
  { apt_host_probe := ⟨0, "0", ""⟩
    mktemp := ⟨0, "d", ""⟩
    wget_probe := ⟨0, "", ""⟩
    curl_probe := ⟨1, "", ""⟩
    print_uris := ⟨0, "u", ""⟩
    rdepends_probe := ⟨0, "", ""⟩
    rdepends := ⟨0, "c", ""⟩
    apt_cache := ⟨0, "", ""⟩
    download_uris_res := ⟨0, "", ""⟩
    download_packages_res := ⟨0, "", ""⟩
    list_debs_res := ⟨0, "d/f.deb", ""⟩
    sftp_ok := fun _ => true }

/-- Like rGood but with neither wget nor curl present on the remote; the
expansion path still works. -/
def rFallback : Remote :=
  { rGood with wget_probe := ⟨1, "", ""⟩, curl_probe := ⟨1, "", ""⟩ }

/-- Like rGood but print-uris fails and apt-rdepends fails. -/
def rBothFail : Remote :=
  { rGood with print_uris := ⟨1, "", ""⟩, rdepends := ⟨1, "", ""⟩ }

/-- Like rGood but print-uris exits zero with empty output. -/
def rEmptyPrint : Remote :=
  { rGood with print_uris := ⟨0, "", ""⟩ }

/-- An output path that already exists as a non-empty directory. -/
def preNonEmpty : LocalPre := ⟨true, true, false, false⟩

/-- A fresh output path. -/
def preFresh : LocalPre := ⟨false, false, true, false⟩

/-! Lemma apparatus.  First, explicit characterizations of each atomic remote
operation and proofs that each outcome function equals the result component
of the corresponding operation; then countP preservation lemmas for the
trace claims. -/

theorem assert_apt_host_eq (r : Remote) (t : Trace) :
    assert_apt_host r t =
      (t ++ [Ev.execAptProbe],
       if strip r.apt_host_probe.stdout ≠ "0" then
         .error "Remote host does not have apt-get. This tool requires a Debian/Ubuntu-like system."
       else .ok ()) := by
  unfold assert_apt_host
  split <;> simp_all

theorem mktemp_dir_eq (r : Remote) (t : Trace) :
    mktemp_dir r t =
      (t ++ [Ev.execMktemp],
       if r.mktemp.exit_status ≠ 0 then .error "Failed to create remote temp directory."
       else .ok (strip r.mktemp.stdout)) := by
  unfold mktemp_dir
  split <;> simp_all

theorem compute_uris_via_apt_print_eq (r : Remote) (pkg : String) (t : Trace) :
    compute_uris_via_apt_print r pkg t =
      (t ++ [Ev.execPrintUris],
       if r.print_uris.exit_status ≠ 0 then
         .error "Failed to compute URIs via apt-get --print-uris."
       else .ok (parse_lines r.print_uris.stdout)) := by
  unfold compute_uris_via_apt_print
  split <;> simp_all

theorem compute_packages_via_rdepends_eq (r : Remote) (pkg : String) (t : Trace) :
    compute_packages_via_rdepends r pkg t =
      (t ++ [Ev.execRdepends],
       if r.rdepends.exit_status ≠ 0 then
         .error "apt-rdepends failed to compute dependencies."
       else .ok (parse_lines r.rdepends.stdout)) := by
  unfold compute_packages_via_rdepends
  split <;> simp_all

theorem compute_packages_via_apt_cache_eq (r : Remote) (pkg : String) (t : Trace) :
    compute_packages_via_apt_cache r pkg t =
      (t ++ [Ev.execAptCache],
       if r.apt_cache.exit_status ≠ 0 then
         .error "apt-cache depends failed to compute dependencies."
       else .ok (parse_lines r.apt_cache.stdout)) := by
  unfold compute_packages_via_apt_cache
  split <;> simp_all

theorem list_debs_eq (r : Remote) (d : String) (t : Trace) :
    list_debs r d t =
      (t ++ [Ev.execListDebs],
       if r.list_debs_res.exit_status ≠ 0 then
         .error "Failed to enumerate downloaded .deb files."
       else .ok (parse_lines r.list_debs_res.stdout)) := by
  unfold list_debs
  split <;> simp_all

theorem choose_downloader_snd (r : Remote) (t : Trace) :
    (choose_downloader r t).2 = choose_downloader_out r := by
  unfold choose_downloader choose_downloader_out
  by_cases h1 : r.wget_probe.exit_status = 0 <;> by_cases h2 : r.curl_probe.exit_status = 0 <;>
    simp [h1, h2]

theorem download_uris_snd (r : Remote) (uris : List String) (d : String) (t : Trace) :
    (download_uris r uris d t).2 = download_uris_out r uris := by
  unfold download_uris download_uris_out
  split
  · rfl
  · rw [show choose_downloader r t = ((choose_downloader r t).1, choose_downloader_out r) from
      by rw [← choose_downloader_snd r t]]
    cases choose_downloader_out r
    · rfl
    · dsimp only
      split <;> simp_all

theorem download_packages_snd (r : Remote) (pkgs : List String) (d : String) (t : Trace) :
    (download_packages r pkgs d t).2 = download_packages_out r pkgs := by
  unfold download_packages download_packages_out
  split <;> [rfl; (split <;> simp_all)]

theorem primaryBlock_snd (r : Remote) (pkg : String) (method : String) (d : String) (t : Trace) :
    (primaryBlock r pkg method d t).2 = primaryBlock_out r method := by
  unfold primaryBlock primaryBlock_out
  split
  · rw [compute_uris_via_apt_print_eq]
    by_cases h1 : r.print_uris.exit_status ≠ 0
    · simp [h1]
    · simp only [h1, if_false, if_neg h1]
      by_cases h2 : parse_lines r.print_uris.stdout = [] ∧ method = "auto"
      · simp [h2]
      · simp only [h2, if_neg h2]
        rw [show download_uris r (parse_lines r.print_uris.stdout) d (t ++ [Ev.execPrintUris])
              = ((download_uris r (parse_lines r.print_uris.stdout) d
                  (t ++ [Ev.execPrintUris])).1,
                 download_uris_out r (parse_lines r.print_uris.stdout)) from
            by rw [← download_uris_snd]]
        cases download_uris_out r (parse_lines r.print_uris.stdout) <;> simp
  · rfl

theorem secondaryBlock_snd (r : Remote) (pkg : String) (sk : Option (List String))
    (d : String) (t : Trace) :
    (secondaryBlock r pkg sk d t).2 = secondaryBlock_out r sk := by
  unfold secondaryBlock secondaryBlock_out ensure_apt_rdepends expansion_out
  by_cases hp : r.rdepends_probe.exit_status = 0
  all_goals
    simp only [hp, if_pos, if_neg, if_true, if_false, decide_eq_true_eq, ite_true, ite_false,
      compute_packages_via_rdepends_eq, compute_packages_via_apt_cache_eq]
  · by_cases h1 : r.rdepends.exit_status ≠ 0
    · simp [h1]
    · simp only [h1, if_neg h1, ite_false]
      by_cases h2 : parse_lines r.rdepends.stdout = []
      · simp [h2]
      · simp only [h2, if_neg h2, ite_false]
        rw [show download_packages r (applySkips (parse_lines r.rdepends.stdout) sk) d
              (t ++ [Ev.execRdependsProbe] ++ [Ev.execRdepends])
            = ((download_packages r (applySkips (parse_lines r.rdepends.stdout) sk) d
                 (t ++ [Ev.execRdependsProbe] ++ [Ev.execRdepends])).1,
               download_packages_out r (applySkips (parse_lines r.rdepends.stdout) sk)) from
          by rw [← download_packages_snd]]
        cases download_packages_out r (applySkips (parse_lines r.rdepends.stdout) sk) <;> simp
  · by_cases h1 : r.apt_cache.exit_status ≠ 0
    · simp [h1]
    · simp only [h1, if_neg h1, ite_false]
      by_cases h2 : parse_lines r.apt_cache.stdout = []
      · simp [h2]
      · simp only [h2, if_neg h2, ite_false]
        rw [show download_packages r (applySkips (parse_lines r.apt_cache.stdout) sk) d
              (t ++ [Ev.execRdependsProbe] ++ [Ev.execAptCache])
            = ((download_packages r (applySkips (parse_lines r.apt_cache.stdout) sk) d
                 (t ++ [Ev.execRdependsProbe] ++ [Ev.execAptCache])).1,
               download_packages_out r (applySkips (parse_lines r.apt_cache.stdout) sk)) from
          by rw [← download_packages_snd]]
        cases download_packages_out r (applySkips (parse_lines r.apt_cache.stdout) sk) <;> simp

theorem resolveAndDownload_snd (r : Remote) (pkg : String) (sk : Option (List String))
    (method : String) (d : String) (t : Trace) :
    (resolveAndDownload r pkg sk method d t).2 = resolveAndDownload_out r sk method := by
  unfold resolveAndDownload resolveAndDownload_out
  rw [show primaryBlock r pkg method d t
        = ((primaryBlock r pkg method d t).1, primaryBlock_out r method) from
      by rw [← primaryBlock_snd]]
  cases primaryBlock_out r method with
  | ok s => rfl
  | error p =>
    try dsimp only
    split
    · rfl
    · rw [show secondaryBlock r pkg sk d (primaryBlock r pkg method d t).1
            = ((secondaryBlock r pkg sk d (primaryBlock r pkg method d t).1).1,
               secondaryBlock_out r sk) from
        by rw [← secondaryBlock_snd]]
      cases secondaryBlock_out r sk <;> rfl

theorem transfer_loop_snd (r : Remote) (files : List String) (t : Trace) :
    (transfer_loop r files t).2.2 = transfer_out r files := by
  induction files generalizing t with
  | nil => rfl
  | cons f rest ih =>
    unfold transfer_loop sftp_get transfer_out
    by_cases hs : r.sftp_ok f <;> simp [hs, ih]

/-- The result component of the outer try body is exactly run_out: the trace
plays no role in the outcome. -/
theorem runBody_result (r : Remote) (pkg : String) (sk : Option (List String)) (method : String)
    (t : Trace) : (runBody r pkg sk method t).2.2 = run_out r sk method := by
  unfold runBody run_out
  rcases hA : assert_apt_host r t with ⟨t1, res1⟩
  have h1 : res1 = (if strip r.apt_host_probe.stdout ≠ "0" then
      .error "Remote host does not have apt-get. This tool requires a Debian/Ubuntu-like system."
    else .ok ()) := by
    have := assert_apt_host_eq r t
    rw [hA] at this
    simp only [Prod.mk.injEq] at this
    exact this.2
  rw [h1]
  by_cases hc1 : strip r.apt_host_probe.stdout ≠ "0"
  · simp [hc1]
  · simp only [hc1, if_neg hc1, ite_false]
    try dsimp only
    rcases hM : mktemp_dir r t1 with ⟨t2, res2⟩
    have h2 : res2 = (if r.mktemp.exit_status ≠ 0 then
        .error "Failed to create remote temp directory." else .ok (strip r.mktemp.stdout)) := by
      have := mktemp_dir_eq r t1
      rw [hM] at this
      simp only [Prod.mk.injEq] at this
      exact this.2
    rw [h2]
    by_cases hc2 : r.mktemp.exit_status ≠ 0
    · simp [hc2]
    · simp only [hc2, if_neg hc2, ite_false]
      try dsimp only
      rcases hR : resolveAndDownload r pkg sk method (strip r.mktemp.stdout) t2 with ⟨t3, res3⟩
      have h3 : res3 = resolveAndDownload_out r sk method := by
        have := resolveAndDownload_snd r pkg sk method (strip r.mktemp.stdout) t2
        rw [hR] at this
        exact this
      rw [h3]
      cases resolveAndDownload_out r sk method with
      | error e => rfl
      | ok s =>
        try dsimp only
        rcases hL : list_debs r (strip r.mktemp.stdout) t3 with ⟨t4, res4⟩
        have h4 : res4 = (if r.list_debs_res.exit_status ≠ 0 then
            .error "Failed to enumerate downloaded .deb files."
          else .ok (parse_lines r.list_debs_res.stdout)) := by
          have := list_debs_eq r (strip r.mktemp.stdout) t3
          rw [hL] at this
          simp only [Prod.mk.injEq] at this
          exact this.2
        rw [h4]
        by_cases hc4 : r.list_debs_res.exit_status ≠ 0
        · simp [hc4]
        · simp only [hc4, if_neg hc4, ite_false]
          try dsimp only
          by_cases hc5 : parse_lines r.list_debs_res.stdout = []
          · simp [hc5]
          · simp only [hc5, if_neg hc5, ite_false]
            try dsimp only
            rcases hT : transfer_loop r (parse_lines r.list_debs_res.stdout) t4 with ⟨t5, ws, res5⟩
            have h5 : res5 = transfer_out r (parse_lines r.list_debs_res.stdout) := by
              have := transfer_loop_snd r (parse_lines r.list_debs_res.stdout) t4
              rw [hT] at this
              exact this
            rw [h5]
            cases transfer_out r (parse_lines r.list_debs_res.stdout) <;> rfl

/-- The result of run is exactly run_out. -/
theorem run_result (r : Remote) (pkg : String) (sk : Option (List String)) (method : String) :
    (run r pkg sk method).result = run_out r sk method := by
  unfold run
  rcases hB : runBody r pkg sk method [] with ⟨t, ws, res⟩
  have := runBody_result r pkg sk method []
  rw [hB] at this
  exact this

/-! Trace counting lemmas: each operation only appends events, and each
event kind is emitted by exactly one operation, so countP over a predicate
that is false on the events an operation emits passes through unchanged. -/

theorem countP_append_one (t : Trace) (e : Ev) (P : Ev → Bool) (h : P e = false) :
    (t ++ [e]).countP P = t.countP P := by
  simp [List.countP_append, List.countP_cons, h]

theorem choose_downloader_eq (r : Remote) (t : Trace) :
    choose_downloader r t =
      (if r.wget_probe.exit_status = 0 then
        (t ++ [Ev.execWgetProbe], .ok "wget -q -P \x7bdir\x7d \x7burl\x7d")
      else if r.curl_probe.exit_status = 0 then
        (t ++ [Ev.execWgetProbe, Ev.execCurlProbe],
         .ok "curl -L --fail --silent --show-error -o \x7bdir\x7d/\x7bfname\x7d \x7burl\x7d")
      else
        (t ++ [Ev.execWgetProbe, Ev.execCurlProbe],
         .error "Neither wget nor curl found on remote host.")) := by
  unfold choose_downloader
  by_cases h1 : r.wget_probe.exit_status = 0 <;> by_cases h2 : r.curl_probe.exit_status = 0 <;>
    simp [h1, h2]

theorem choose_downloader_countP (r : Remote) (t : Trace) (P : Ev → Bool)
    (hWG : P Ev.execWgetProbe = false) (hCU : P Ev.execCurlProbe = false) :
    ((choose_downloader r t).1).countP P = t.countP P := by
  rw [choose_downloader_eq]
  by_cases h1 : r.wget_probe.exit_status = 0 <;> by_cases h2 : r.curl_probe.exit_status = 0 <;>
    simp [h1, h2, List.countP_append, List.countP_cons, hWG, hCU]

theorem download_uris_countP (r : Remote) (uris : List String) (d : String) (t : Trace)
    (P : Ev → Bool) (hWG : P Ev.execWgetProbe = false) (hCU : P Ev.execCurlProbe = false)
    (hDLU : ∀ us, P (Ev.execDownloadUris us) = false) :
    ((download_uris r uris d t).1).countP P = t.countP P := by
  unfold download_uris
  split
  · rfl
  · rcases hC : choose_downloader r t with ⟨t1, res1⟩
    have ht1 : t1.countP P = t.countP P := by
      have := choose_downloader_countP r t P hWG hCU
      rw [hC] at this
      exact this
    cases res1 with
    | error e => exact ht1
    | ok tmpl =>
      try dsimp only
      split <;> simp [List.countP_append, List.countP_cons, hDLU, ht1]

theorem download_packages_countP (r : Remote) (pkgs : List String) (d : String) (t : Trace)
    (P : Ev → Bool) (hDLP : ∀ ps, P (Ev.execDownloadPackages ps) = false) :
    ((download_packages r pkgs d t).1).countP P = t.countP P := by
  unfold download_packages
  split
  · rfl
  · split <;> simp [List.countP_append, List.countP_cons, hDLP]

theorem primaryBlock_countP (r : Remote) (pkg : String) (m : String) (d : String) (t : Trace)
    (P : Ev → Bool) (hPU : P Ev.execPrintUris = false) (hWG : P Ev.execWgetProbe = false)
    (hCU : P Ev.execCurlProbe = false) (hDLU : ∀ us, P (Ev.execDownloadUris us) = false) :
    ((primaryBlock r pkg m d t).1).countP P = t.countP P := by
  unfold primaryBlock
  split
  · rcases hC : compute_uris_via_apt_print r pkg t with ⟨t1, res1⟩
    have ht1 : t1.countP P = t.countP P := by
      have := compute_uris_via_apt_print_eq r pkg t
      rw [hC] at this
      simp only [Prod.mk.injEq] at this
      rw [this.1]
      exact countP_append_one t _ P hPU
    cases res1 with
    | error e => exact ht1
    | ok uris =>
      try dsimp only
      split
      · exact ht1
      · rcases hD : download_uris r uris d t1 with ⟨t2, res2⟩
        have ht2 : t2.countP P = t1.countP P := by
          have := download_uris_countP r uris d t1 P hWG hCU hDLU
          rw [hD] at this
          exact this
        cases res2 <;> simp [ht1, ht2]
  · rfl

theorem secondaryBlock_countP (r : Remote) (pkg : String) (sk : Option (List String))
    (d : String) (t : Trace) (P : Ev → Bool)
    (hRP : P Ev.execRdependsProbe = false) (hRD : P Ev.execRdepends = false)
    (hAC : P Ev.execAptCache = false) (hDLP : ∀ ps, P (Ev.execDownloadPackages ps) = false) :
    ((secondaryBlock r pkg sk d t).1).countP P = t.countP P := by
  unfold secondaryBlock ensure_apt_rdepends
  try dsimp only
  have hbase : (t ++ [Ev.execRdependsProbe]).countP P = t.countP P :=
    countP_append_one t _ P hRP
  by_cases hp : r.rdepends_probe.exit_status = 0
  all_goals simp only [hp, decide_True, decide_False, Bool.false_eq_true, ite_true, ite_false,
    if_true, if_false]
  · rcases hC : compute_packages_via_rdepends r pkg (t ++ [Ev.execRdependsProbe]) with ⟨t2, res2⟩
    have ht2 : t2.countP P = t.countP P := by
      have := compute_packages_via_rdepends_eq r pkg (t ++ [Ev.execRdependsProbe])
      rw [hC] at this
      simp only [Prod.mk.injEq] at this
      rw [this.1, countP_append_one _ _ P hRD]
      exact hbase
    cases res2 with
    | error e => exact ht2
    | ok pkgs =>
      try dsimp only
      split
      · exact ht2
      · rcases hD : download_packages r (applySkips pkgs sk) d t2 with ⟨t3, res3⟩
        have ht3 : t3.countP P = t2.countP P := by
          have := download_packages_countP r (applySkips pkgs sk) d t2 P hDLP
          rw [hD] at this
          exact this
        cases res3 <;> simp [ht2, ht3]
  · rcases hC : compute_packages_via_apt_cache r pkg (t ++ [Ev.execRdependsProbe]) with ⟨t2, res2⟩
    have ht2 : t2.countP P = t.countP P := by
      have := compute_packages_via_apt_cache_eq r pkg (t ++ [Ev.execRdependsProbe])
      rw [hC] at this
      simp only [Prod.mk.injEq] at this
      rw [this.1, countP_append_one _ _ P hAC]
      exact hbase
    cases res2 with
    | error e => exact ht2
    | ok pkgs =>
      try dsimp only
      split
      · exact ht2
      · rcases hD : download_packages r (applySkips pkgs sk) d t2 with ⟨t3, res3⟩
        have ht3 : t3.countP P = t2.countP P := by
          have := download_packages_countP r (applySkips pkgs sk) d t2 P hDLP
          rw [hD] at this
          exact this
        cases res3 <;> simp [ht2, ht3]

theorem resolveAndDownload_countP (r : Remote) (pkg : String) (sk : Option (List String))
    (m : String) (d : String) (t : Trace) (P : Ev → Bool)
    (hPU : P Ev.execPrintUris = false) (hWG : P Ev.execWgetProbe = false)
    (hCU : P Ev.execCurlProbe = false) (hDLU : ∀ us, P (Ev.execDownloadUris us) = false)
    (hRP : P Ev.execRdependsProbe = false) (hRD : P Ev.execRdepends = false)
    (hAC : P Ev.execAptCache = false) (hDLP : ∀ ps, P (Ev.execDownloadPackages ps) = false) :
    ((resolveAndDownload r pkg sk m d t).1).countP P = t.countP P := by
  unfold resolveAndDownload
  rcases hP : primaryBlock r pkg m d t with ⟨t1, res1⟩
  have ht1 : t1.countP P = t.countP P := by
    have := primaryBlock_countP r pkg m d t P hPU hWG hCU hDLU
    rw [hP] at this
    exact this
  cases res1 with
  | ok s => exact ht1
  | error p =>
    try dsimp only
    split
    · exact ht1
    · rcases hS : secondaryBlock r pkg sk d t1 with ⟨t2, res2⟩
      have ht2 : t2.countP P = t1.countP P := by
        have := secondaryBlock_countP r pkg sk d t1 P hRP hRD hAC hDLP
        rw [hS] at this
        exact this
      cases res2 <;> simp [ht1, ht2]

theorem transfer_loop_countP (r : Remote) (files : List String) (t : Trace) (P : Ev → Bool)
    (h : ∀ p, P (Ev.sftpGet p) = false) :
    ((transfer_loop r files t).1).countP P = t.countP P := by
  induction files generalizing t with
  | nil => rfl
  | cons f rest ih =>
    unfold transfer_loop sftp_get
    by_cases hs : r.sftp_ok f <;>
      simp [hs, ih, List.countP_append, List.countP_cons, h]

/-! Run-level trace lemmas. -/

/-- The outer try body emits exactly one cleanup event on the success path
and none on any failure path. -/
theorem runBody_countP_clean (r : Remote) (pkg : String) (sk : Option (List String))
    (m : String) (t : Trace) :
    ((runBody r pkg sk m t).1).countP Ev.isCleanup
      = t.countP Ev.isCleanup + (if isOkE (runBody r pkg sk m t).2.2 then 1 else 0) := by
  unfold runBody
  rcases hA : assert_apt_host r t with ⟨t1, res1⟩
  have ht1 : t1.countP Ev.isCleanup = t.countP Ev.isCleanup := by
    have := assert_apt_host_eq r t
    rw [hA] at this
    simp only [Prod.mk.injEq] at this
    rw [this.1]
    exact countP_append_one t _ _ rfl
  cases res1 with
  | error e => simp [isOkE, ht1]
  | ok u =>
    try dsimp only
    rcases hM : mktemp_dir r t1 with ⟨t2, res2⟩
    have ht2 : t2.countP Ev.isCleanup = t1.countP Ev.isCleanup := by
      have := mktemp_dir_eq r t1
      rw [hM] at this
      simp only [Prod.mk.injEq] at this
      rw [this.1]
      exact countP_append_one t1 _ _ rfl
    cases res2 with
    | error e => simp [isOkE, ht1, ht2]
    | ok remote_dir =>
      try dsimp only
      rcases hR : resolveAndDownload r pkg sk m remote_dir t2 with ⟨t3, res3⟩
      have ht3 : t3.countP Ev.isCleanup = t2.countP Ev.isCleanup := by
        have := resolveAndDownload_countP r pkg sk m remote_dir t2 Ev.isCleanup
          rfl rfl rfl (fun _ => rfl) rfl rfl rfl (fun _ => rfl)
        rw [hR] at this
        exact this
      cases res3 with
      | error e => simp [isOkE, ht1, ht2, ht3]
      | ok s =>
        try dsimp only
        rcases hL : list_debs r remote_dir t3 with ⟨t4, res4⟩
        have ht4 : t4.countP Ev.isCleanup = t3.countP Ev.isCleanup := by
          have := list_debs_eq r remote_dir t3
          rw [hL] at this
          simp only [Prod.mk.injEq] at this
          rw [this.1]
          exact countP_append_one t3 _ _ rfl
        cases res4 with
        | error e => simp [isOkE, ht1, ht2, ht3, ht4]
        | ok deb_files =>
          try dsimp only
          by_cases hF : deb_files = []
          · simp [hF, isOkE, ht1, ht2, ht3, ht4]
          · simp only [hF, if_neg hF, ite_false]
            rcases hT : transfer_loop r deb_files t4 with ⟨t5, ws, res5⟩
            have ht5 : t5.countP Ev.isCleanup = t4.countP Ev.isCleanup := by
              have := transfer_loop_countP r deb_files t4 Ev.isCleanup (fun _ => rfl)
              rw [hT] at this
              exact this
            cases res5 with
            | error e => simp [isOkE, ht1, ht2, ht3, ht4, ht5]
            | ok u =>
              simp [isOkE, cleanup_dir, List.countP_append, List.countP_cons, Ev.isCleanup,
                ht1, ht2, ht3, ht4, ht5]

/-- The cleanup command is issued exactly once on a successful run and never
on a failed run. -/
theorem run_countP_clean (r : Remote) (pkg : String) (sk : Option (List String)) (m : String) :
    ((run r pkg sk m).trace).countP Ev.isCleanup
      = if isOkE (run r pkg sk m).result then 1 else 0 := by
  unfold run
  rcases hB : runBody r pkg sk m [] with ⟨t, ws, res⟩
  have := runBody_countP_clean r pkg sk m []
  rw [hB] at this
  simp only [List.countP_nil] at this
  simpa [countP_append_one t Ev.closeSession Ev.isCleanup rfl] using this

/-- In uris mode the inner try never reaches the secondary block, so no
expansion event is emitted by resolveAndDownload. -/
theorem resolveAndDownload_countP_exp_uris (r : Remote) (pkg : String)
    (sk : Option (List String)) (d : String) (t : Trace) :
    ((resolveAndDownload r pkg sk "uris" d t).1).countP Ev.isExpansion
      = t.countP Ev.isExpansion := by
  unfold resolveAndDownload
  rcases hP : primaryBlock r pkg "uris" d t with ⟨t1, res1⟩
  have ht1 : t1.countP Ev.isExpansion = t.countP Ev.isExpansion := by
    have := primaryBlock_countP r pkg "uris" d t Ev.isExpansion rfl rfl rfl (fun _ => rfl)
    rw [hP] at this
    exact this
  cases res1 with
  | ok s => exact ht1
  | error p => simpa using ht1

/-- When the primary block succeeds, resolveAndDownload emits no expansion
event. -/
theorem resolveAndDownload_countP_exp_ok (r : Remote) (pkg : String)
    (sk : Option (List String)) (m : String) (d : String) (t : Trace)
    (h : isOkE (primaryBlock_out r m) = true) :
    ((resolveAndDownload r pkg sk m d t).1).countP Ev.isExpansion
      = t.countP Ev.isExpansion := by
  unfold resolveAndDownload
  rcases hP : primaryBlock r pkg m d t with ⟨t1, res1⟩
  have hres : res1 = primaryBlock_out r m := by
    have := primaryBlock_snd r pkg m d t
    rw [hP] at this
    exact this
  have ht1 : t1.countP Ev.isExpansion = t.countP Ev.isExpansion := by
    have := primaryBlock_countP r pkg m d t Ev.isExpansion rfl rfl rfl (fun _ => rfl)
    rw [hP] at this
    exact this
  cases res1 with
  | ok s => exact ht1
  | error p => rw [← hres] at h; simp [isOkE] at h

/-- download_packages only extends the trace, so any count can only grow. -/
theorem download_packages_countP_ge (r : Remote) (pkgs : List String) (d : String)
    (t : Trace) (P : Ev → Bool) :
    t.countP P ≤ ((download_packages r pkgs d t).1).countP P := by
  unfold download_packages
  split
  · exact Nat.le_refl _
  · split <;> simp [List.countP_append]

/-- The secondary block always begins with the apt-rdepends probe, an
expansion event, so it strictly increases the expansion count. -/
theorem secondaryBlock_countP_exp_ge (r : Remote) (pkg : String)
    (sk : Option (List String)) (d : String) (t : Trace) :
    t.countP Ev.isExpansion + 1 ≤ ((secondaryBlock r pkg sk d t).1).countP Ev.isExpansion := by
  unfold secondaryBlock ensure_apt_rdepends
  try dsimp only
  have hbase : (t ++ [Ev.execRdependsProbe]).countP Ev.isExpansion
      = t.countP Ev.isExpansion + 1 := by
    simp [List.countP_append, List.countP_cons, Ev.isExpansion]
  by_cases hp : r.rdepends_probe.exit_status = 0
  all_goals simp only [hp, decide_True, decide_False, Bool.false_eq_true, ite_true, ite_false,
    if_true, if_false]
  · rcases hC : compute_packages_via_rdepends r pkg (t ++ [Ev.execRdependsProbe]) with ⟨t2, res2⟩
    have ht2 : t.countP Ev.isExpansion + 1 ≤ t2.countP Ev.isExpansion := by
      have := compute_packages_via_rdepends_eq r pkg (t ++ [Ev.execRdependsProbe])
      rw [hC] at this
      simp only [Prod.mk.injEq] at this
      rw [this.1]
      simp [List.countP_append, List.countP_cons, Ev.isExpansion]
    cases res2 with
    | error e => exact ht2
    | ok pkgs =>
      try dsimp only
      split
      · exact ht2
      · rcases hD : download_packages r (applySkips pkgs sk) d t2 with ⟨t3, res3⟩
        have ht3 : t2.countP Ev.isExpansion ≤ t3.countP Ev.isExpansion := by
          have := download_packages_countP_ge r (applySkips pkgs sk) d t2 Ev.isExpansion
          rw [hD] at this
          exact this
        cases res3 <;> simp <;> omega
  · rcases hC : compute_packages_via_apt_cache r pkg (t ++ [Ev.execRdependsProbe]) with ⟨t2, res2⟩
    have ht2 : t.countP Ev.isExpansion + 1 ≤ t2.countP Ev.isExpansion := by
      have := compute_packages_via_apt_cache_eq r pkg (t ++ [Ev.execRdependsProbe])
      rw [hC] at this
      simp only [Prod.mk.injEq] at this
      rw [this.1]
      simp [List.countP_append, List.countP_cons, Ev.isExpansion]
    cases res2 with
    | error e => exact ht2
    | ok pkgs =>
      try dsimp only
      split
      · exact ht2
      · rcases hD : download_packages r (applySkips pkgs sk) d t2 with ⟨t3, res3⟩
        have ht3 : t2.countP Ev.isExpansion ≤ t3.countP Ev.isExpansion := by
          have := download_packages_countP_ge r (applySkips pkgs sk) d t2 Ev.isExpansion
          rw [hD] at this
          exact this
        cases res3 <;> simp <;> omega

/-- When the primary block fails and the mode is not uris, the secondary
block is reached, so at least one expansion event is emitted. -/
theorem resolveAndDownload_countP_exp_fallback (r : Remote) (pkg : String)
    (sk : Option (List String)) (m : String) (d : String) (t : Trace) (p : String)
    (hp : primaryBlock_out r m = .error p) (hm : m ≠ "uris") :
    t.countP Ev.isExpansion + 1 ≤ ((resolveAndDownload r pkg sk m d t).1).countP Ev.isExpansion := by
  unfold resolveAndDownload
  rcases hP : primaryBlock r pkg m d t with ⟨t1, res1⟩
  have hres : res1 = primaryBlock_out r m := by
    have := primaryBlock_snd r pkg m d t
    rw [hP] at this
    exact this
  have ht1 : t1.countP Ev.isExpansion = t.countP Ev.isExpansion := by
    have := primaryBlock_countP r pkg m d t Ev.isExpansion rfl rfl rfl (fun _ => rfl)
    rw [hP] at this
    exact this
  cases res1 with
  | ok s => rw [hp] at hres; cases hres
  | error q =>
    try dsimp only
    rw [if_neg hm]
    rcases hS : secondaryBlock r pkg sk d t1 with ⟨t2, res2⟩
    have ht2 : t1.countP Ev.isExpansion + 1 ≤ t2.countP Ev.isExpansion := by
      have := secondaryBlock_countP_exp_ge r pkg sk d t1
      rw [hS] at this
      exact this
    cases res2 <;> simp <;> omega

/-- No expansion event is emitted by the whole try body when the mode is
uris, or when the primary block succeeds. -/
theorem runBody_countP_exp_preserved (r : Remote) (pkg : String) (sk : Option (List String))
    (m : String) (t : Trace)
    (hres : m = "uris" ∨ isOkE (primaryBlock_out r m) = true) :
    ((runBody r pkg sk m t).1).countP Ev.isExpansion = t.countP Ev.isExpansion := by
  unfold runBody
  rcases hA : assert_apt_host r t with ⟨t1, res1⟩
  have ht1 : t1.countP Ev.isExpansion = t.countP Ev.isExpansion := by
    have := assert_apt_host_eq r t
    rw [hA] at this
    simp only [Prod.mk.injEq] at this
    rw [this.1]
    exact countP_append_one t _ _ rfl
  cases res1 with
  | error e => exact ht1
  | ok u =>
    try dsimp only
    rcases hM : mktemp_dir r t1 with ⟨t2, res2⟩
    have ht2 : t2.countP Ev.isExpansion = t1.countP Ev.isExpansion := by
      have := mktemp_dir_eq r t1
      rw [hM] at this
      simp only [Prod.mk.injEq] at this
      rw [this.1]
      exact countP_append_one t1 _ _ rfl
    cases res2 with
    | error e => rw [ht2, ht1]
    | ok remote_dir =>
      try dsimp only
      rcases hR : resolveAndDownload r pkg sk m remote_dir t2 with ⟨t3, res3⟩
      have ht3 : t3.countP Ev.isExpansion = t2.countP Ev.isExpansion := by
        rcases hres with hres | hres
        · subst hres
          have := resolveAndDownload_countP_exp_uris r pkg sk remote_dir t2
          rw [hR] at this
          exact this
        · have := resolveAndDownload_countP_exp_ok r pkg sk m remote_dir t2 hres
          rw [hR] at this
          exact this
      cases res3 with
      | error e => rw [ht3, ht2, ht1]
      | ok s =>
        try dsimp only
        rcases hL : list_debs r remote_dir t3 with ⟨t4, res4⟩
        have ht4 : t4.countP Ev.isExpansion = t3.countP Ev.isExpansion := by
          have := list_debs_eq r remote_dir t3
          rw [hL] at this
          simp only [Prod.mk.injEq] at this
          rw [this.1]
          exact countP_append_one t3 _ _ rfl
        cases res4 with
        | error e => rw [ht4, ht3, ht2, ht1]
        | ok deb_files =>
          try dsimp only
          by_cases hF : deb_files = []
          · simp [hF, ht4, ht3, ht2, ht1]
          · simp only [hF, if_neg hF, ite_false]
            rcases hT : transfer_loop r deb_files t4 with ⟨t5, ws, res5⟩
            have ht5 : t5.countP Ev.isExpansion = t4.countP Ev.isExpansion := by
              have := transfer_loop_countP r deb_files t4 Ev.isExpansion (fun _ => rfl)
              rw [hT] at this
              exact this
            cases res5 with
            | error e => rw [ht5, ht4, ht3, ht2, ht1]
            | ok u =>
              simp [cleanup_dir, List.countP_append, List.countP_cons, Ev.isExpansion,
                ht5, ht4, ht3, ht2, ht1]

/-- When the probe and the scratch directory creation succeed, the primary
block fails and the mode is not uris, the whole try body emits at least one
expansion event: the fallback is attempted. -/
theorem runBody_countP_exp_fallback (r : Remote) (pkg : String) (sk : Option (List String))
    (m : String) (t : Trace) (p : String)
    (hA : strip r.apt_host_probe.stdout = "0") (hMk : r.mktemp.exit_status = 0)
    (hp : primaryBlock_out r m = .error p) (hm : m ≠ "uris") :
    t.countP Ev.isExpansion + 1 ≤ ((runBody r pkg sk m t).1).countP Ev.isExpansion := by
  unfold runBody
  rw [assert_apt_host_eq]
  rw [if_neg (by simp [hA])]
  try dsimp only
  rw [mktemp_dir_eq]
  rw [if_neg (by simp [hMk])]
  try dsimp only
  rcases hR : resolveAndDownload r pkg sk m (strip r.mktemp.stdout)
      (t ++ [Ev.execAptProbe] ++ [Ev.execMktemp]) with ⟨t3, res3⟩
  have ht3 : t.countP Ev.isExpansion + 1 ≤ t3.countP Ev.isExpansion := by
    have := resolveAndDownload_countP_exp_fallback r pkg sk m (strip r.mktemp.stdout)
      (t ++ [Ev.execAptProbe] ++ [Ev.execMktemp]) p hp hm
    rw [hR] at this
    calc t.countP Ev.isExpansion + 1
        = (t ++ [Ev.execAptProbe] ++ [Ev.execMktemp]).countP Ev.isExpansion + 1 := by
          simp [List.countP_append, List.countP_cons, Ev.isExpansion]
      _ ≤ t3.countP Ev.isExpansion := this
  cases res3 with
  | error e => exact ht3
  | ok s =>
    try dsimp only
    rcases hL : list_debs r (strip r.mktemp.stdout) t3 with ⟨t4, res4⟩
    have ht4 : t4.countP Ev.isExpansion = t3.countP Ev.isExpansion := by
      have := list_debs_eq r (strip r.mktemp.stdout) t3
      rw [hL] at this
      simp only [Prod.mk.injEq] at this
      rw [this.1]
      exact countP_append_one t3 _ _ rfl
    cases res4 with
    | error e =>
      try dsimp only
      omega
    | ok deb_files =>
      try dsimp only
      by_cases hF : deb_files = []
      · try dsimp only
        simp only [hF, ite_true]
        omega
      · simp only [hF, if_neg hF, ite_false]
        rcases hT : transfer_loop r deb_files t4 with ⟨t5, ws, res5⟩
        have ht5 : t5.countP Ev.isExpansion = t4.countP Ev.isExpansion := by
          have := transfer_loop_countP r deb_files t4 Ev.isExpansion (fun _ => rfl)
          rw [hT] at this
          exact this
        cases res5 with
        | error e =>
          try dsimp only
          omega
        | ok u =>
          try dsimp only
          have : (cleanup_dir (strip r.mktemp.stdout) t5).countP Ev.isExpansion
              = t5.countP Ev.isExpansion := by
            simp [cleanup_dir, List.countP_append, List.countP_cons, Ev.isExpansion]
          omega

/-- Run-level corollary: no expansion command in uris mode or when the
primary block succeeds. -/
theorem run_countP_exp_preserved (r : Remote) (pkg : String) (sk : Option (List String))
    (m : String) (hres : m = "uris" ∨ isOkE (primaryBlock_out r m) = true) :
    ((run r pkg sk m).trace).countP Ev.isExpansion = 0 := by
  unfold run
  rcases hB : runBody r pkg sk m [] with ⟨t, ws, res⟩
  have := runBody_countP_exp_preserved r pkg sk m [] hres
  rw [hB] at this
  simp only [List.countP_nil] at this
  simpa [countP_append_one t Ev.closeSession Ev.isExpansion rfl] using this

/-- Run-level corollary: the fallback is attempted (an expansion command is
issued) whenever the probe and mktemp succeed, the primary block fails, and
the mode is not uris. -/
theorem run_countP_exp_fallback (r : Remote) (pkg : String) (sk : Option (List String))
    (m : String) (p : String)
    (hA : strip r.apt_host_probe.stdout = "0") (hMk : r.mktemp.exit_status = 0)
    (hp : primaryBlock_out r m = .error p) (hm : m ≠ "uris") :
    1 ≤ ((run r pkg sk m).trace).countP Ev.isExpansion := by
  unfold run
  rcases hB : runBody r pkg sk m [] with ⟨t, ws, res⟩
  have := runBody_countP_exp_fallback r pkg sk m [] p hA hMk hp hm
  rw [hB] at this
  simp only [List.countP_nil] at this
  simpa [countP_append_one t Ev.closeSession Ev.isExpansion rfl] using this

/-! Membership lemmas for the URI download event: the only operation that
emits execDownloadUris is download_uris, and it is only called by the
primary block, always with the unfiltered parsed URI list. -/

theorem DLU_mem_choose (r : Remote) (t : Trace) (us : List String)
    (h : Ev.execDownloadUris us ∈ (choose_downloader r t).1) :
    Ev.execDownloadUris us ∈ t := by
  rw [choose_downloader_eq] at h
  by_cases h1 : r.wget_probe.exit_status = 0 <;> by_cases h2 : r.curl_probe.exit_status = 0 <;>
    simp_all

theorem DLU_mem_download_uris (r : Remote) (uris : List String) (d : String) (t : Trace)
    (us : List String) (h : Ev.execDownloadUris us ∈ (download_uris r uris d t).1) :
    Ev.execDownloadUris us ∈ t ∨ us = uris := by
  unfold download_uris at h
  split at h
  · exact Or.inl h
  · rcases hC : choose_downloader r t with ⟨t1, res1⟩
    rw [hC] at h
    cases res1 with
    | error e => exact Or.inl (DLU_mem_choose r t us (by rw [hC]; exact h))
    | ok tmpl =>
      dsimp only at h
      split at h <;>
      · simp only [List.mem_append, List.mem_singleton, Ev.execDownloadUris.injEq] at h
        rcases h with h | h
        · exact Or.inl (DLU_mem_choose r t us (by rw [hC]; exact h))
        · exact Or.inr h

theorem DLU_mem_primaryBlock (r : Remote) (pkg : String) (m : String) (d : String) (t : Trace)
    (us : List String) (h : Ev.execDownloadUris us ∈ (primaryBlock r pkg m d t).1) :
    Ev.execDownloadUris us ∈ t ∨ us = parse_lines r.print_uris.stdout := by
  unfold primaryBlock at h
  split at h
  · rcases hC : compute_uris_via_apt_print r pkg t with ⟨t1, res1⟩
    rw [hC] at h
    have hmem1 : Ev.execDownloadUris us ∈ t1 → Ev.execDownloadUris us ∈ t := by
      intro hx
      have := compute_uris_via_apt_print_eq r pkg t
      rw [hC] at this
      simp only [Prod.mk.injEq] at this
      rw [this.1] at hx
      simpa using hx
    cases res1 with
    | error e => exact Or.inl (hmem1 h)
    | ok uris =>
      dsimp only at h
      split at h
      · exact Or.inl (hmem1 h)
      · rcases hD : download_uris r uris d t1 with ⟨t2, res2⟩
        rw [hD] at h
        have huris : uris = parse_lines r.print_uris.stdout := by
          have := compute_uris_via_apt_print_eq r pkg t
          rw [hC] at this
          simp only [Prod.mk.injEq] at this
          have h2 := this.2
          by_cases hx : r.print_uris.exit_status ≠ 0
          · simp [hx] at h2
          · simp only [hx, if_neg hx, ite_false] at h2
            cases h2
            rfl
        have hmem2 : Ev.execDownloadUris us ∈ t2 → Ev.execDownloadUris us ∈ t ∨ us = uris := by
          intro hx
          have := DLU_mem_download_uris r uris d t1 us (by rw [hD]; exact hx)
          rcases this with hy | hy
          · exact Or.inl (hmem1 hy)
          · exact Or.inr hy
        have hres : Ev.execDownloadUris us ∈ t2 := by
          cases res2 <;> simpa using h
        rcases hmem2 hres with hy | hy
        · exact Or.inl hy
        · exact Or.inr (hy.trans huris)
  · exact Or.inl h

theorem DLU_mem_download_packages (r : Remote) (pkgs : List String) (d : String) (t : Trace)
    (us : List String) (h : Ev.execDownloadUris us ∈ (download_packages r pkgs d t).1) :
    Ev.execDownloadUris us ∈ t := by
  unfold download_packages at h
  split at h
  · exact h
  · split at h <;> simpa using h

theorem DLU_mem_secondaryBlock (r : Remote) (pkg : String) (sk : Option (List String))
    (d : String) (t : Trace) (us : List String)
    (h : Ev.execDownloadUris us ∈ (secondaryBlock r pkg sk d t).1) :
    Ev.execDownloadUris us ∈ t := by
  unfold secondaryBlock ensure_apt_rdepends at h
  dsimp only at h
  by_cases hp : r.rdepends_probe.exit_status = 0
  all_goals simp only [hp, decide_True, decide_False, Bool.false_eq_true, ite_true, ite_false,
    if_true, if_false] at h
  · rcases hC : compute_packages_via_rdepends r pkg (t ++ [Ev.execRdependsProbe]) with ⟨t2, res2⟩
    rw [hC] at h
    have hmem1 : Ev.execDownloadUris us ∈ t2 → Ev.execDownloadUris us ∈ t := by
      intro hx
      have := compute_packages_via_rdepends_eq r pkg (t ++ [Ev.execRdependsProbe])
      rw [hC] at this
      simp only [Prod.mk.injEq] at this
      rw [this.1] at hx
      simpa using hx
    cases res2 with
    | error e => exact hmem1 h
    | ok pkgs =>
      dsimp only at h
      split at h
      · exact hmem1 h
      · rcases hD : download_packages r (applySkips pkgs sk) d t2 with ⟨t3, res3⟩
        rw [hD] at h
        have hres : Ev.execDownloadUris us ∈ t3 := by
          cases res3 <;> simpa using h
        exact hmem1 (DLU_mem_download_packages r (applySkips pkgs sk) d t2 us
          (by rw [hD]; exact hres))
  · rcases hC : compute_packages_via_apt_cache r pkg (t ++ [Ev.execRdependsProbe]) with ⟨t2, res2⟩
    rw [hC] at h
    have hmem1 : Ev.execDownloadUris us ∈ t2 → Ev.execDownloadUris us ∈ t := by
      intro hx
      have := compute_packages_via_apt_cache_eq r pkg (t ++ [Ev.execRdependsProbe])
      rw [hC] at this
      simp only [Prod.mk.injEq] at this
      rw [this.1] at hx
      simpa using hx
    cases res2 with
    | error e => exact hmem1 h
    | ok pkgs =>
      dsimp only at h
      split at h
      · exact hmem1 h
      · rcases hD : download_packages r (applySkips pkgs sk) d t2 with ⟨t3, res3⟩
        rw [hD] at h
        have hres : Ev.execDownloadUris us ∈ t3 := by
          cases res3 <;> simpa using h
        exact hmem1 (DLU_mem_download_packages r (applySkips pkgs sk) d t2 us
          (by rw [hD]; exact hres))

theorem DLU_mem_resolveAndDownload (r : Remote) (pkg : String) (sk : Option (List String))
    (m : String) (d : String) (t : Trace) (us : List String)
    (h : Ev.execDownloadUris us ∈ (resolveAndDownload r pkg sk m d t).1) :
    Ev.execDownloadUris us ∈ t ∨ us = parse_lines r.print_uris.stdout := by
  unfold resolveAndDownload at h
  rcases hP : primaryBlock r pkg m d t with ⟨t1, res1⟩
  rw [hP] at h
  have hmem1 : Ev.execDownloadUris us ∈ t1 →
      Ev.execDownloadUris us ∈ t ∨ us = parse_lines r.print_uris.stdout := by
    intro hx
    exact DLU_mem_primaryBlock r pkg m d t us (by rw [hP]; exact hx)
  cases res1 with
  | ok s => exact hmem1 h
  | error p =>
    dsimp only at h
    split at h
    · exact hmem1 h
    · rcases hS : secondaryBlock r pkg sk d t1 with ⟨t2, res2⟩
      rw [hS] at h
      have hres : Ev.execDownloadUris us ∈ t2 := by
        cases res2 <;> simpa using h
      exact hmem1 (DLU_mem_secondaryBlock r pkg sk d t1 us (by rw [hS]; exact hres))

theorem DLU_mem_transfer_loop (r : Remote) (files : List String) (t : Trace) (us : List String)
    (h : Ev.execDownloadUris us ∈ (transfer_loop r files t).1) :
    Ev.execDownloadUris us ∈ t := by
  induction files generalizing t with
  | nil => exact h
  | cons f rest ih =>
    unfold transfer_loop sftp_get at h
    by_cases hs : r.sftp_ok f
    · simp only [hs, ite_true, if_true] at h
      have := ih (t ++ [Ev.sftpGet f]) h
      simpa using this
    · simp only [hs, Bool.false_eq_true, ite_false, if_false] at h
      simpa using h

/-- Any URI download event of a run carries exactly the unfiltered parsed
print-uris output. -/
theorem DLU_mem_run (r : Remote) (pkg : String) (sk : Option (List String)) (m : String)
    (us : List String) (h : Ev.execDownloadUris us ∈ (run r pkg sk m).trace) :
    us = parse_lines r.print_uris.stdout := by
  unfold run runBody at h
  rcases hB : assert_apt_host r [] with ⟨t1, res1⟩
  rw [hB] at h
  have hmem1 : Ev.execDownloadUris us ∈ t1 → False := by
    intro hx
    have := assert_apt_host_eq r []
    rw [hB] at this
    simp only [Prod.mk.injEq] at this
    rw [this.1] at hx
    simp at hx
  cases res1 with
  | error e =>
    dsimp only at h
    simp only [List.mem_append, List.mem_singleton] at h
    rcases h with h | h
    · exact absurd h hmem1
    · cases h
  | ok u =>
    dsimp only at h
    rcases hM : mktemp_dir r t1 with ⟨t2, res2⟩
    rw [hM] at h
    have hmem2 : Ev.execDownloadUris us ∈ t2 → False := by
      intro hx
      have := mktemp_dir_eq r t1
      rw [hM] at this
      simp only [Prod.mk.injEq] at this
      rw [this.1] at hx
      simp only [List.mem_append, List.mem_singleton] at hx
      rcases hx with hx | hx
      · exact hmem1 hx
      · cases hx
    cases res2 with
    | error e =>
      dsimp only at h
      simp only [List.mem_append, List.mem_singleton] at h
      rcases h with h | h
      · exact absurd h hmem2
      · cases h
    | ok remote_dir =>
      dsimp only at h
      rcases hR : resolveAndDownload r pkg sk m remote_dir t2 with ⟨t3, res3⟩
      rw [hR] at h
      have hmem3 : Ev.execDownloadUris us ∈ t3 → us = parse_lines r.print_uris.stdout := by
        intro hx
        rcases DLU_mem_resolveAndDownload r pkg sk m remote_dir t2 us
          (by rw [hR]; exact hx) with hy | hy
        · exact absurd hy hmem2
        · exact hy
      cases res3 with
      | error e =>
        dsimp only at h
        simp only [List.mem_append, List.mem_singleton] at h
        rcases h with h | h
        · exact hmem3 h
        · cases h
      | ok s =>
        dsimp only at h
        rcases hL : list_debs r remote_dir t3 with ⟨t4, res4⟩
        rw [hL] at h
        have hmem4 : Ev.execDownloadUris us ∈ t4 → us = parse_lines r.print_uris.stdout := by
          intro hx
          have := list_debs_eq r remote_dir t3
          rw [hL] at this
          simp only [Prod.mk.injEq] at this
          rw [this.1] at hx
          simp only [List.mem_append, List.mem_singleton] at hx
          rcases hx with hx | hx
          · exact hmem3 hx
          · cases hx
        cases res4 with
        | error e =>
          dsimp only at h
          simp only [List.mem_append, List.mem_singleton] at h
          rcases h with h | h
          · exact hmem4 h
          · cases h
        | ok deb_files =>
          dsimp only at h
          by_cases hF : deb_files = []
          · simp only [hF, ite_true, if_true] at h
            simp only [List.mem_append, List.mem_singleton] at h
            rcases h with h | h
            · exact hmem4 h
            · cases h
          · simp only [hF, ite_false, if_false] at h
            rcases hT : transfer_loop r deb_files t4 with ⟨t5, ws, res5⟩
            rw [hT] at h
            have hmem5 : Ev.execDownloadUris us ∈ t5 →
                us = parse_lines r.print_uris.stdout := by
              intro hx
              exact hmem4 (DLU_mem_transfer_loop r deb_files t4 us (by rw [hT]; exact hx))
            cases res5 with
            | error e =>
              dsimp only at h
              simp only [List.mem_append, List.mem_singleton] at h
              rcases h with h | h
              · exact hmem5 h
              · cases h
            | ok u =>
              dsimp only at h
              simp only [cleanup_dir, List.mem_append, List.mem_singleton] at h
              rcases h with (h | h) | h
              · exact hmem5 h
              · cases h
              · cases h

/-! Skip-list filter semantics and mode-specific outcome reductions. -/

theorem applySkips_eq_filter (pkgs sk : List String) :
    applySkips pkgs (some sk) = pkgs.filter (fun p => !sk.contains p) := by
  unfold applySkips
  by_cases hsk : sk = []
  · subst hsk
    simp
  · simp [hsk]

theorem mem_applySkips (pkgs sk : List String) (q : String) :
    q ∈ applySkips pkgs (some sk) ↔ q ∈ pkgs ∧ q ∉ sk := by
  rw [applySkips_eq_filter]
  simp [List.mem_filter]

theorem applySkips_sublist (pkgs sk : List String) :
    (applySkips pkgs (some sk)).Sublist pkgs := by
  rw [applySkips_eq_filter]
  exact List.filter_sublist pkgs

/-- In uris mode with probe and mktemp succeeding, a primary failure is the
final result of the run: no fallback, same error. -/
theorem run_out_uris_fatal (r : Remote) (sk : Option (List String)) (e : String)
    (hA : strip r.apt_host_probe.stdout = "0") (hMk : r.mktemp.exit_status = 0)
    (hp : primaryBlock_out r "uris" = .error e) :
    run_out r sk "uris" = .error e := by
  unfold run_out
  rw [if_neg (by simp [hA])]
  try dsimp only
  rw [if_neg (by simp [hMk])]
  unfold resolveAndDownload_out
  rw [hp]
  try dsimp only
  rw [if_pos rfl]

/-- In auto mode with probe and mktemp succeeding, when both the primary
block and the secondary block fail, the run fails with the combined
two-message error. -/
theorem run_out_auto_combined (r : Remote) (sk : Option (List String)) (p s : String)
    (hA : strip r.apt_host_probe.stdout = "0") (hMk : r.mktemp.exit_status = 0)
    (hp : primaryBlock_out r "auto" = .error p)
    (hs : secondaryBlock_out r sk = .error s) :
    run_out r sk "auto"
      = .error ("Both strategies failed. Primary: " ++ p ++ " | Secondary: " ++ s) := by
  unfold run_out
  rw [if_neg (by simp [hA])]
  try dsimp only
  rw [if_neg (by simp [hMk])]
  unfold resolveAndDownload_out
  rw [hp]
  try dsimp only
  rw [if_neg (by decide), hs]

/-- A nonzero print-uris exit makes the primary block fail with the compute
error, in both auto and uris modes. -/
theorem primaryBlock_out_exit_err (r : Remote) (m : String)
    (hm : m = "auto" ∨ m = "uris") (h : r.print_uris.exit_status ≠ 0) :
    primaryBlock_out r m = .error "Failed to compute URIs via apt-get --print-uris." := by
  unfold primaryBlock_out
  rw [if_pos hm, if_pos h]

/-- A zero exit with empty parsed output makes the primary block fail with
the empty-result error in auto mode. -/
theorem primaryBlock_out_empty_err (r : Remote)
    (h0 : r.print_uris.exit_status = 0) (he : parse_lines r.print_uris.stdout = []) :
    primaryBlock_out r "auto" = .error "No URIs from print-uris; falling back." := by
  unfold primaryBlock_out
  rw [if_pos (Or.inl rfl), if_neg (by simp [h0]), if_pos ⟨he, rfl⟩]

/-- The primary block succeeds when the print-uris call succeeds with a
non-empty list, a downloader exists, and the batched download exits zero. -/
theorem primaryBlock_out_ok (r : Remote) (m : String) (hm : m = "auto" ∨ m = "uris")
    (h0 : r.print_uris.exit_status = 0) (hne : parse_lines r.print_uris.stdout ≠ [])
    (hdl : r.wget_probe.exit_status = 0 ∨ r.curl_probe.exit_status = 0)
    (hok : r.download_uris_res.exit_status = 0) :
    primaryBlock_out r m = .ok "print-uris" := by
  unfold primaryBlock_out download_uris_out choose_downloader_out
  rw [if_pos hm, if_neg (by simp [h0]), if_neg (by simp [hne]), if_neg hne]
  rcases hdl with hw | hc
  · rw [if_pos hw]
    try dsimp only
    rw [if_neg (by simp [hok])]
  · by_cases hw : r.wget_probe.exit_status = 0
    · rw [if_pos hw]
      try dsimp only
      rw [if_neg (by simp [hok])]
    · rw [if_neg hw, if_pos hc]
      try dsimp only
      rw [if_neg (by simp [hok])]

/-- With neither wget nor curl on the remote, the primary block fails with
the no-downloader error whenever it reaches the download step. -/
theorem primaryBlock_out_nodl (r : Remote) (m : String) (hm : m = "auto" ∨ m = "uris")
    (h0 : r.print_uris.exit_status = 0) (hne : parse_lines r.print_uris.stdout ≠ [])
    (hw : r.wget_probe.exit_status ≠ 0) (hc : r.curl_probe.exit_status ≠ 0) :
    primaryBlock_out r m = .error "Neither wget nor curl found on remote host." := by
  unfold primaryBlock_out download_uris_out choose_downloader_out
  rw [if_pos hm, if_neg (by simp [h0]), if_neg (by simp [hne]), if_neg hne,
    if_neg hw, if_neg hc]

/-- With neither wget nor curl on the remote, the primary block always fails
in auto mode (whatever the print-uris call returned). -/
theorem primaryBlock_out_auto_nodl (r : Remote)
    (hw : r.wget_probe.exit_status ≠ 0) (hc : r.curl_probe.exit_status ≠ 0) :
    ∃ p, primaryBlock_out r "auto" = .error p := by
  by_cases h0 : r.print_uris.exit_status = 0
  · by_cases he : parse_lines r.print_uris.stdout = []
    · exact ⟨_, primaryBlock_out_empty_err r h0 he⟩
    · exact ⟨_, primaryBlock_out_nodl r "auto" (Or.inl rfl) h0 he hw hc⟩
  · exact ⟨_, primaryBlock_out_exit_err r "auto" (Or.inl rfl) h0⟩

/-! The claims. -/

/-- C1 (counterexample): in automatic mode the URI strategy of rFallback
returns a non-empty URI list, yet the run issues expansion commands, because
the primary path fails later at the download step (no downloader); the claim
that a non-empty URI list alone rules out the expansion strategy is false. -/
theorem C1_counterexample :
    parse_lines rFallback.print_uris.stdout ≠ [] ∧
    ((run rFallback "curl" none "auto").trace).countP Ev.isExpansion ≠ 0 := by
  exact ⟨by decide, by decide⟩

/-- C1 (amended): in automatic mode, when the URI strategy returns a
non-empty list AND the URI download step succeeds (a downloader is present
and the batched download exits zero), no expansion command is ever issued. -/
theorem C1_amended_no_expansion_when_primary_succeeds (r : Remote) (pkg : String)
    (sk : Option (List String))
    (h0 : r.print_uris.exit_status = 0) (hne : parse_lines r.print_uris.stdout ≠ [])
    (hdl : r.wget_probe.exit_status = 0 ∨ r.curl_probe.exit_status = 0)
    (hok : r.download_uris_res.exit_status = 0) :
    ((run r pkg sk "auto").trace).countP Ev.isExpansion = 0 := by
  apply run_countP_exp_preserved
  right
  rw [primaryBlock_out_ok r "auto" (Or.inl rfl) h0 hne hdl hok]
  rfl

/-- C1 (witness): the amended statement applied to rGood. -/
theorem C1_witness :
    ((run rGood "curl" none "auto").trace).countP Ev.isExpansion = 0 :=
  C1_amended_no_expansion_when_primary_succeeds rGood "curl" none rfl (by decide)
    (Or.inl rfl) rfl

/-- C2: in automatic mode, when the URI strategy fails (nonzero exit or
empty output) and the secondary block also fails, the run terminates with the
single combined error embedding the primary message and the secondary
message. -/
theorem C2_combined_error (r : Remote) (pkg : String) (sk : Option (List String)) (s : String)
    (hA : strip r.apt_host_probe.stdout = "0") (hMk : r.mktemp.exit_status = 0)
    (huri : r.print_uris.exit_status ≠ 0 ∨
      (r.print_uris.exit_status = 0 ∧ parse_lines r.print_uris.stdout = []))
    (hsec : secondaryBlock_out r sk = .error s) :
    ∃ p, (p = "Failed to compute URIs via apt-get --print-uris." ∨
          p = "No URIs from print-uris; falling back.") ∧
      (run r pkg sk "auto").result
        = .error ("Both strategies failed. Primary: " ++ p ++ " | Secondary: " ++ s) := by
  rcases huri with h | ⟨h0, he⟩
  · refine ⟨_, Or.inl rfl, ?_⟩
    rw [run_result]
    exact run_out_auto_combined r sk _ s hA hMk
      (primaryBlock_out_exit_err r "auto" (Or.inl rfl) h) hsec
  · refine ⟨_, Or.inr rfl, ?_⟩
    rw [run_result]
    exact run_out_auto_combined r sk _ s hA hMk
      (primaryBlock_out_empty_err r h0 he) hsec

/-- C2 (witness): on rBothFail both strategies fail and the surfaced message
combines both underlying messages. -/
theorem C2_witness :
    ∃ p, (p = "Failed to compute URIs via apt-get --print-uris." ∨
          p = "No URIs from print-uris; falling back.") ∧
      (run rBothFail "curl" none "auto").result
        = .error ("Both strategies failed. Primary: " ++ p ++
            " | Secondary: " ++ "apt-rdepends failed to compute dependencies.") :=
  C2_combined_error rBothFail "curl" none "apt-rdepends failed to compute dependencies."
    rfl rfl (Or.inl (by decide)) rfl

/-- C3 (counterexample): the URI strategy of rEmptyPrint returns the empty
list as a success (no ResolutionError), refuting the claim that every
strategy fails on empty output. -/
theorem C3_counterexample :
    rEmptyPrint.print_uris.exit_status = 0 ∧
    (compute_uris_via_apt_print rEmptyPrint "curl" []).2 = .ok ([] : List String) := by
  exact ⟨rfl, rfl⟩

/-- C3 (amended): each strategy fails with a ToolError exactly when its
remote command exits nonzero; on a zero exit it returns the parsed, possibly
empty, list, and emptiness is rejected by the orchestrator instead: an empty
URI result in auto mode raises the fallback trigger error, and an empty
expansion result raises the empty-expansion error. -/
theorem C3_amended_failure_semantics (r : Remote) (pkg : String) (sk : Option (List String))
    (d : String) (t : Trace) :
    ((compute_uris_via_apt_print r pkg t).2
        = if r.print_uris.exit_status ≠ 0 then
            .error "Failed to compute URIs via apt-get --print-uris."
          else .ok (parse_lines r.print_uris.stdout)) ∧
    ((compute_packages_via_rdepends r pkg t).2
        = if r.rdepends.exit_status ≠ 0 then
            .error "apt-rdepends failed to compute dependencies."
          else .ok (parse_lines r.rdepends.stdout)) ∧
    ((compute_packages_via_apt_cache r pkg t).2
        = if r.apt_cache.exit_status ≠ 0 then
            .error "apt-cache depends failed to compute dependencies."
          else .ok (parse_lines r.apt_cache.stdout)) ∧
    (r.print_uris.exit_status = 0 → parse_lines r.print_uris.stdout = [] →
      (primaryBlock r pkg "auto" d t).2 = .error "No URIs from print-uris; falling back.") ∧
    (expansion_out r = .ok [] →
      (secondaryBlock r pkg sk d t).2 = .error "Dependency expansion returned empty list.") := by
  refine ⟨by rw [compute_uris_via_apt_print_eq], by rw [compute_packages_via_rdepends_eq],
    by rw [compute_packages_via_apt_cache_eq], ?_, ?_⟩
  · intro h0 he
    rw [primaryBlock_snd]
    exact primaryBlock_out_empty_err r h0 he
  · intro hexp
    rw [secondaryBlock_snd]
    unfold secondaryBlock_out
    rw [hexp]
    rfl

/-- C3 (witness): the amended statement applied to rEmptyPrint shows the
orchestrator rejecting the empty URI result. -/
theorem C3_witness :
    (primaryBlock rEmptyPrint "curl" "auto" "d" []).2
      = .error "No URIs from print-uris; falling back." :=
  (C3_amended_failure_semantics rEmptyPrint "curl" none "d" []).2.2.2.1 rfl (by decide)

/-- C4: in forced uris mode no expansion command is ever issued, and when
the probe and mktemp succeed, any primary failure is the final error of the
run (no fallback). -/
theorem C4_forced_uris_no_fallback (r : Remote) (pkg : String) (sk : Option (List String)) :
    ((run r pkg sk "uris").trace).countP Ev.isExpansion = 0 ∧
    (∀ e, strip r.apt_host_probe.stdout = "0" → r.mktemp.exit_status = 0 →
      primaryBlock_out r "uris" = .error e →
      (run r pkg sk "uris").result = .error e) := by
  constructor
  · exact run_countP_exp_preserved r pkg sk "uris" (Or.inl rfl)
  · intro e hA hMk hp
    rw [run_result]
    exact run_out_uris_fatal r sk e hA hMk hp

/-- C4 (witness): a failing print-uris call in uris mode is fatal with the
same error on rBothFail. -/
theorem C4_witness :
    (run rBothFail "curl" none "uris").result
      = .error "Failed to compute URIs via apt-get --print-uris." :=
  (C4_forced_uris_no_fallback rBothFail "curl" none).2 _ rfl rfl
    (primaryBlock_out_exit_err rBothFail "uris" (Or.inr rfl) (by decide))

/-- C5: both download operations reject the empty input list with the
corresponding ToolError before issuing any remote command: the trace is
returned unchanged. -/
theorem C5_empty_input_fails_fast (r : Remote) (d : String) (t : Trace) :
    download_uris r [] d t = (t, .error "Empty URI list; nothing to download.") ∧
    download_packages r [] d t = (t, .error "Empty package list; nothing to download.") := by
  exact ⟨rfl, rfl⟩

/-- C6: the remote scratch directory removal is issued exactly once on a
successful run and never on a failed run. -/
theorem C6_cleanup_only_on_success (r : Remote) (pkg : String) (sk : Option (List String))
    (m : String) :
    (∀ e, (run r pkg sk m).result = .error e →
      ((run r pkg sk m).trace).countP Ev.isCleanup = 0) ∧
    ((run r pkg sk m).result = .ok () →
      ((run r pkg sk m).trace).countP Ev.isCleanup = 1) := by
  have h := run_countP_clean r pkg sk m
  constructor
  · intro e he
    rw [he] at h
    simpa [isOkE] using h
  · intro hok
    rw [hok] at h
    simpa [isOkE] using h

/-- C6 (witness): on the fully successful rGood run, cleanup is issued
exactly once. -/
theorem C6_witness :
    ((run rGood "curl" none "auto").trace).countP Ev.isCleanup = 1 :=
  (C6_cleanup_only_on_success rGood "curl" none "auto").2 rfl

/-- C7: on every run, success or failure, the session close is the last
remote interaction: the trace always ends with the close event. -/
theorem C7_session_always_closed (r : Remote) (pkg : String) (sk : Option (List String))
    (m : String) :
    (run r pkg sk m).trace ≠ [] ∧
    (run r pkg sk m).trace.getLast? = some Ev.closeSession := by
  unfold run
  rcases hB : runBody r pkg sk m [] with ⟨t, ws, res⟩
  constructor
  · simp
  · simp

/-- C8: the exclusion filter on the expansion path returns exactly the
packages whose name is not excluded, preserving order, and every URI
download event of any run carries the unfiltered parsed print-uris output:
exclusion never touches URI-strategy results. -/
theorem C8_exclusion_semantics :
    (∀ (pkgs sk : List String),
      applySkips pkgs (some sk) = pkgs.filter (fun p => !sk.contains p) ∧
      (∀ q, q ∈ applySkips pkgs (some sk) ↔ q ∈ pkgs ∧ q ∉ sk) ∧
      (applySkips pkgs (some sk)).Sublist pkgs) ∧
    (∀ (r : Remote) (pkg : String) (sk : Option (List String)) (m : String) (us : List String),
      Ev.execDownloadUris us ∈ (run r pkg sk m).trace →
      us = parse_lines r.print_uris.stdout) :=
  ⟨fun pkgs sk =>
    ⟨applySkips_eq_filter pkgs sk, fun q => mem_applySkips pkgs sk q,
      applySkips_sublist pkgs sk⟩,
   fun r pkg sk m us h => DLU_mem_run r pkg sk m us h⟩

/-- C8 (witness): even with the lone URI in the skip list, the URI download
of rGood carries it unchanged. -/
theorem C8_witness : ["u"] = parse_lines rGood.print_uris.stdout :=
  C8_exclusion_semantics.2 rGood "curl" (some ["u"]) "auto" ["u"] (by decide)

/-- C9 (counterexample): on rFallback neither wget nor curl exists, yet the
automatic-mode run recovers through the expansion fallback and succeeds,
refuting the claim that the no-downloader failure terminates the run. -/
theorem C9_counterexample :
    rFallback.wget_probe.exit_status ≠ 0 ∧ rFallback.curl_probe.exit_status ≠ 0 ∧
    (run rFallback "curl" none "auto").result = .ok () := by
  exact ⟨by decide, by decide, rfl⟩

/-- C9 (amended): when neither downloader exists, choose_downloader fails
with the no-downloader error; in forced uris mode (probe and mktemp fine,
non-empty URI list) the run terminates with exactly that error; in automatic
mode the failure is caught and the expansion fallback is attempted
instead. -/
theorem C9_amended_no_downloader (r : Remote) (pkg : String) (sk : Option (List String))
    (t : Trace) :
    (r.wget_probe.exit_status ≠ 0 → r.curl_probe.exit_status ≠ 0 →
      (choose_downloader r t).2 = .error "Neither wget nor curl found on remote host.") ∧
    (strip r.apt_host_probe.stdout = "0" → r.mktemp.exit_status = 0 →
     r.print_uris.exit_status = 0 → parse_lines r.print_uris.stdout ≠ [] →
     r.wget_probe.exit_status ≠ 0 → r.curl_probe.exit_status ≠ 0 →
      (run r pkg sk "uris").result = .error "Neither wget nor curl found on remote host.") ∧
    (strip r.apt_host_probe.stdout = "0" → r.mktemp.exit_status = 0 →
     r.wget_probe.exit_status ≠ 0 → r.curl_probe.exit_status ≠ 0 →
      1 ≤ ((run r pkg sk "auto").trace).countP Ev.isExpansion) := by
  refine ⟨?_, ?_, ?_⟩
  · intro hw hc
    rw [choose_downloader_snd]
    unfold choose_downloader_out
    rw [if_neg hw, if_neg hc]
  · intro hA hMk h0 hne hw hc
    rw [run_result]
    exact run_out_uris_fatal r sk _ hA hMk
      (primaryBlock_out_nodl r "uris" (Or.inr rfl) h0 hne hw hc)
  · intro hA hMk hw hc
    obtain ⟨p, hp⟩ := primaryBlock_out_auto_nodl r hw hc
    exact run_countP_exp_fallback r pkg sk "auto" p hA hMk hp (by decide)

/-- C9 (witness): on rFallback the uris-mode run terminates with the
no-downloader error. -/
theorem C9_witness :
    (run rFallback "curl" none "uris").result
      = .error "Neither wget nor curl found on remote host." :=
  (C9_amended_no_downloader rFallback "curl" none []).2.1 rfl rfl rfl (by decide)
    (by decide) (by decide)

/-- C10 (counterexample): invoking the entry point with an existing
non-empty output directory fails inside ensure_out_dir, before the
try-finally, so nothing is removed: the directory persists, refuting the
for-every-invocation claim. -/
theorem C10_counterexample :
    (main preNonEmpty rGood "curl" none "auto").1
      = .prepFailure "Output directory is not empty." ∧
    (main preNonEmpty rGood "curl" none "auto").2.outDirPresent = true := by
  exact ⟨rfl, rfl⟩

/-- C10 (amended): for every invocation in which output-directory
preparation succeeds, the output directory and everything transferred into
it are removed in the finally clause regardless of outcome; on success only
the tar bundle persists, and on failure the bundle is not created. -/
theorem C10_amended_finally_removal (pre : LocalPre) (r : Remote) (pkg : String)
    (sk : Option (List String)) (m : String) (h : ensure_out_dir pre = .ok ()) :
    (main pre r pkg sk m).2.outDirPresent = false ∧
    (main pre r pkg sk m).2.outDirFiles = [] ∧
    ((run r pkg sk m).result = .ok () →
      (main pre r pkg sk m).1 = .success ∧ (main pre r pkg sk m).2.tarPresent = true) ∧
    (∀ e, (run r pkg sk m).result = .error e →
      (main pre r pkg sk m).1 = .toolFailure e ∧
      (main pre r pkg sk m).2.tarPresent = pre.tarExists) := by
  unfold main
  rw [h]
  try dsimp only
  rcases hres : (run r pkg sk m).result with e | u
  · refine ⟨rfl, rfl, ?_, ?_⟩
    · intro hok
      cases hok
    · intro e' he'
      cases he'
      exact ⟨rfl, rfl⟩
  · refine ⟨rfl, rfl, ?_, ?_⟩
    · intro hok
      exact ⟨rfl, rfl⟩
    · intro e' he'
      cases he'

/-- C10 (witness): on a fresh output path with the fully successful rGood
run, the output directory is removed and the bundle persists. -/
theorem C10_witness :
    (main preFresh rGood "curl" none "auto").2.outDirPresent = false ∧
    (main preFresh rGood "curl" none "auto").1 = .success :=
  ⟨(C10_amended_finally_removal preFresh rGood "curl" none "auto" rfl).1,
   ((C10_amended_finally_removal preFresh rGood "curl" none "auto" rfl).2.2.1 rfl).1⟩

end PkgFetcher
